import Mathlib

/-!
Verification of the gainsight-api-toolkit scripts.

The repository is a set of read-only command-line scripts that query a
remote REST API and print formatted summaries.  This development embeds
the logic of the scripts shallowly:

* remote responses are modelled by `CallResult` (a transport exception or
  an HTTP response carrying a status code and a JSON body);
* the JSON body shape is modelled by `Body` and `RawData` (the `data`
  field of the response is either a mapping with a `records` key, some
  other mapping, a bare list, absent, or some other value);
* strings are modelled as `List Char`;
* each fetch function and each script top level becomes a pure Lean
  function of the modelled response(s).
-/

namespace GainsightToolkit

/-- A contact / activity record.  The scripts treat records as string
maps; the only field whose value any modelled logic inspects is
`Person_ID__gr.Email` (used by `extract_email_domains`), so only that
field is carried.  `none` models an absent key or a JSON null. -/
structure Contact where
  email : Option (List Char)
deriving DecidableEq

/-- Shape of the `data` field of a decoded response body:
`dictWithRecords` is a mapping containing a `records` key, `dictOther`
a mapping without one, `list` a bare JSON list, `missing` an absent
`data` key, and `other` any non-mapping, non-list value. -/
inductive RawData (α : Type) where
  | dictWithRecords (records : List α)
  | dictOther
  | list (records : List α)
  | missing
  | other
deriving DecidableEq

/-- A decoded JSON response body: the `result` flag (absent models as
`false`, matching Python truthiness of `data.get('result')`) and the
`data` field. -/
structure Body (α : Type) where
  result : Bool
  data : RawData α
deriving DecidableEq

/-- Outcome of one `requests.post` call: a transport exception
(`requests.RequestException`, including timeouts) or an HTTP response
with a status code and decoded body. -/
inductive CallResult (α : Type) where
  | exn
  | resp (status : Nat) (body : Body α)
deriving DecidableEq

/-- Result of the paginated fetch loop of
`fetch_contacts_by_company_gsid` (contacts-lookup.py): `ok` is the
Python `return contacts` (with the number of query calls issued),
`fail printed` is `return None` (`printed` records that the branch
printed an error line first), and `outOfFuel` marks exhaustion of the
step budget of the model (unreachable for any terminating run). -/
inductive FetchResult (α : Type) where
  | ok (contacts : List α) (calls : Nat)
  | fail (printed : Bool)
  | outOfFuel
deriving DecidableEq

/-- The `while True` pagination loop of `fetch_contacts_by_company_gsid`
(contacts-lookup.py lines 30-98).  `srv offset` is the remote response
to the query issued at that offset; `fuel` bounds the number of
iterations of the model.  Branches, in source order: transport
exception prints and returns `None`; a non-200 status prints and
returns `None`; a falsy `result` flag prints and returns `None`; the
`data` field yields `records` when it is a mapping with a `records`
key or a bare list (an absent `data` key defaults to the list `[]`),
otherwise the loop prints "Unexpected data format" and returns `None`;
the page is appended to the accumulator and the loop stops when the
page is shorter than `limit`, else continues at `offset + limit`. -/
def fetchGo {α : Type} (limit : Nat) (srv : Nat → CallResult α) :
    Nat → Nat → List α → Nat → FetchResult α
  | 0, _, _, _ => .outOfFuel
  | fuel + 1, offset, acc, calls =>
    match srv offset with
    | .exn => .fail true
    | .resp status body =>
      if status ≠ 200 then .fail true
      else if body.result = false then .fail true
      else
        match body.data with
        | .dictWithRecords records =>
          if records.length < limit then .ok (acc ++ records) (calls + 1)
          else fetchGo limit srv fuel (offset + limit) (acc ++ records) (calls + 1)
        | .list records =>
          if records.length < limit then .ok (acc ++ records) (calls + 1)
          else fetchGo limit srv fuel (offset + limit) (acc ++ records) (calls + 1)
        | .missing =>
          if ([] : List α).length < limit then .ok (acc ++ []) (calls + 1)
          else fetchGo limit srv fuel (offset + limit) (acc ++ []) (calls + 1)
        | .dictOther => .fail true
        | .other => .fail true

/-- Model of `fetch_contacts_by_company_gsid` (contacts-lookup.py lines 18-100):
the pagination loop started with `offset = 0` and an empty accumulator.
The source fixes `limit = 1000`; the page size is kept as a parameter
so the loop can be analysed for every page size. -/
def fetch_contacts_by_company_gsid {α : Type} (limit : Nat)
    (srv : Nat → CallResult α) (fuel : Nat) : FetchResult α :=
  fetchGo limit srv fuel 0 [] 0

/-- The record extraction performed by one iteration of the pagination
loop: `none` exactly when the iteration makes the loop return `None`
(transport exception, non-200 status, falsy `result`, or a `data`
field that is neither a mapping with `records` nor a list). -/
def extractRecords {α : Type} : CallResult α → Option (List α)
  | .exn => none
  | .resp status body =>
    if status ≠ 200 then none
    else if body.result = false then none
    else
      match body.data with
      | .dictWithRecords records => some records
      | .list records => some records
      | .missing => some []
      | .dictOther => none
      | .other => none

/-- A response from a server that holds the fixed record list `server`
and answers the query at `offset` honestly with the next page of at
most `limit` records. -/
def honestServer {α : Type} (server : List α) (limit offset : Nat) :
    CallResult α :=
  .resp 200 ⟨true, .dictWithRecords ((server.drop offset).take limit)⟩

lemma fetchGo_succ {α : Type} (limit : Nat) (srv : Nat → CallResult α)
    (fuel offset : Nat) (acc : List α) (calls : Nat) :
    fetchGo limit srv (fuel + 1) offset acc calls =
      match extractRecords (srv offset) with
      | none => .fail true
      | some records =>
        if records.length < limit then .ok (acc ++ records) (calls + 1)
        else fetchGo limit srv fuel (offset + limit) (acc ++ records) (calls + 1) := by
  cases h : srv offset with
  | exn => simp [fetchGo, extractRecords, h]
  | resp status body =>
    by_cases hs : status = 200
    · subst hs
      by_cases hr : body.result = false
      · simp [fetchGo, extractRecords, h, hr]
      · cases hd : body.data <;> simp [fetchGo, extractRecords, h, hr, hd]
    · simp [fetchGo, extractRecords, h, hs]

lemma fetchGo_succ_none {α : Type} (limit : Nat) (srv : Nat → CallResult α)
    (fuel offset : Nat) (acc : List α) (calls : Nat)
    (h : extractRecords (srv offset) = none) :
    fetchGo limit srv (fuel + 1) offset acc calls = .fail true := by
  rw [fetchGo_succ, h]

lemma fetchGo_succ_some {α : Type} (limit : Nat) (srv : Nat → CallResult α)
    (fuel offset : Nat) (acc : List α) (calls : Nat) (records : List α)
    (h : extractRecords (srv offset) = some records) :
    fetchGo limit srv (fuel + 1) offset acc calls =
      if records.length < limit then .ok (acc ++ records) (calls + 1)
      else fetchGo limit srv fuel (offset + limit) (acc ++ records) (calls + 1) := by
  rw [fetchGo_succ, h]

lemma fetchGo_honest {α : Type} (server : List α) (limit : Nat) (hlim : 0 < limit) :
    ∀ fuel offset (acc : List α) (calls : Nat),
      (server.drop offset).length / limit + 1 ≤ fuel →
      fetchGo limit (honestServer server limit) fuel offset acc calls
        = .ok (acc ++ server.drop offset)
            (calls + ((server.drop offset).length / limit + 1)) := by
  intro fuel
  induction fuel with
  | zero => intro offset acc calls h; exact absurd h (Nat.not_succ_le_zero _)
  | succ f ih =>
    intro offset acc calls h
    have hex : extractRecords (honestServer server limit offset)
        = some ((server.drop offset).take limit) := by
      simp [extractRecords, honestServer]
    rw [fetchGo_succ_some limit (honestServer server limit) f offset acc calls
      ((server.drop offset).take limit) hex]
    by_cases hlt : (server.drop offset).length < limit
    · have htake : (server.drop offset).take limit = server.drop offset :=
        List.take_of_length_le (le_of_lt hlt)
      have hdiv : (server.drop offset).length / limit = 0 := Nat.div_eq_of_lt hlt
      simp only [htake, hdiv]
      rw [if_pos hlt]
    · push_neg at hlt
      have hlen : ((server.drop offset).take limit).length = limit := by
        rw [List.length_take]; exact min_eq_left hlt
      rw [if_neg (by rw [hlen]; exact lt_irrefl limit)]
      have hdrop : server.drop (offset + limit) = (server.drop offset).drop limit := by
        rw [List.drop_drop]
      have hq : (server.drop offset).length / limit
          = ((server.drop offset).drop limit).length / limit + 1 := by
        have hld := List.length_drop limit (server.drop offset)
        rw [hld]
        exact Nat.div_eq_sub_div hlim hlt
      have hfuel2 : (server.drop (offset + limit)).length / limit + 1 ≤ f := by
        rw [hdrop]
        generalize hgl : ((server.drop offset).drop limit).length / limit = a at hq
        generalize (server.drop offset).length / limit = b at h hq
        omega
      rw [ih (offset + limit) (acc ++ (server.drop offset).take limit) (calls + 1) hfuel2,
        hdrop, List.append_assoc, List.take_append_drop]
      have hcalls : calls + 1 + (((server.drop offset).drop limit).length / limit + 1)
          = calls + ((server.drop offset).length / limit + 1) := by
        generalize hgl : ((server.drop offset).drop limit).length / limit = a at hq
        generalize (server.drop offset).length / limit = b at hq
        omega
      rw [hcalls]

lemma calls_formula (M N : Nat) (hN : 0 < N) :
    (M + N - 1) / N + (if M % N = 0 then 1 else 0) = M / N + 1 := by
  have h := Nat.div_add_mod M N
  have hr : M % N < N := Nat.mod_lt _ hN
  by_cases h0 : M % N = 0
  · rw [if_pos h0]
    have hM : M + N - 1 = N * (M / N) + (N - 1) := by omega
    rw [hM, Nat.mul_add_div hN, Nat.div_eq_of_lt (by omega : N - 1 < N)]
  · rw [if_neg h0]
    have hexp : N * (M / N + 1) = N * (M / N) + N := by ring
    have hM : M + N - 1 = N * (M / N + 1) + (M % N - 1) := by omega
    rw [hM, Nat.mul_add_div hN, Nat.div_eq_of_lt (by omega : M % N - 1 < N)]

/-- C1: for every page size `N > 0` and every server holding `M`
records, `fetch_contacts_by_company_gsid` issues exactly
`⌈M/N⌉ + (1 if N ∣ M else 0)` query calls at offsets `0, N, 2N, …`,
stops at the first page shorter than `N`, and returns all `M` records
in server order (an empty first page giving one call and an empty,
non-failure result as the `M = 0` case). -/
theorem c1_paginated_fetch {α : Type} (server : List α) (N fuel : Nat)
    (hN : 0 < N) (hfuel : server.length / N + 1 ≤ fuel) :
    fetch_contacts_by_company_gsid N (honestServer server N) fuel
      = .ok server
          ((server.length + N - 1) / N
            + (if server.length % N = 0 then 1 else 0)) := by
  unfold fetch_contacts_by_company_gsid
  have h := fetchGo_honest server N hN fuel 0 [] 0 (by simpa using hfuel)
  simp only [List.drop_zero, List.nil_append, Nat.zero_add] at h
  rw [h, calls_formula server.length N hN]

/-- Witness for C1: a server with 3 records and page size 2 yields the
full record list in 2 calls; a server with 4 records and page size 2
yields it in 3 calls (exact-multiple case); an empty server yields an
empty result in 1 call. -/
theorem c1_paginated_fetch_witness :
    (0 < 2 ∧ (List.replicate 3 (0 : Nat)).length / 2 + 1 ≤ 3
      ∧ (List.replicate 4 (0 : Nat)).length / 2 + 1 ≤ 9
      ∧ ([] : List Nat).length / 2 + 1 ≤ 9)
    ∧ fetch_contacts_by_company_gsid 2 (honestServer (List.replicate 3 (0 : Nat)) 2) 3
        = .ok (List.replicate 3 0) 2
    ∧ fetch_contacts_by_company_gsid 2 (honestServer (List.replicate 4 (0 : Nat)) 2) 9
        = .ok (List.replicate 4 0) 3
    ∧ fetch_contacts_by_company_gsid 2 (honestServer ([] : List Nat) 2) 9
        = .ok [] 1 := by
  refine ⟨⟨by decide, by decide, by decide, by decide⟩, ?_, ?_, ?_⟩
  · rw [c1_paginated_fetch (List.replicate 3 (0 : Nat)) 2 3 (by decide) (by decide)]
    decide
  · rw [c1_paginated_fetch (List.replicate 4 (0 : Nat)) 2 9 (by decide) (by decide)]
    decide
  · rw [c1_paginated_fetch ([] : List Nat) 2 9 (by decide) (by decide)]
    decide

/-- Reading `records` out of a decoded body the way the dashboard
functions do: `data.get('data', {}).get('records', [])`.  A mapping
with a `records` key yields them; a mapping without one, or an absent
`data` key, yields `[]`; a bare list or any other non-mapping value has
no `.get` method, so the Python expression raises (modelled as
`Except.error`). -/
def dictGetDataRecords {α : Type} : RawData α → Except Unit (List α)
  | .dictWithRecords records => .ok records
  | .dictOther => .ok []
  | .missing => .ok []
  | .list _ => .error ()
  | .other => .error ()

/-- Model of `get_timeline_activities` (csm-dashboard.py lines 21-75).  The pair
is (an error line was printed, the returned value); `Except.error`
models an uncaught Python exception.  A transport exception prints and
returns `None`; a non-200 status prints and returns `None`; a falsy
`result` flag prints and returns `None`; otherwise the records are
returned. -/
def get_timeline_activities {α : Type} :
    CallResult α → Except Unit (Bool × Option (List α))
  | .exn => .ok (true, none)
  | .resp status body =>
    if status = 200 then
      if body.result then
        match dictGetDataRecords body.data with
        | .ok records => .ok (false, some records)
        | .error e => .error e
      else .ok (true, none)
    else .ok (true, none)

/-- Model of `lookup_company_name` (csm-dashboard.py lines 78-113).  Returns the
first company record on success and `None` on every failure path; no
failure path prints anything (the bare `except requests.RequestException:
return None` included). -/
def lookup_company_name {α : Type} :
    CallResult α → Except Unit (Bool × Option α)
  | .exn => .ok (false, none)
  | .resp status body =>
    if status = 200 then
      if body.result then
        match dictGetDataRecords body.data with
        | .ok (c :: _) => .ok (false, some c)
        | .ok [] => .ok (false, none)
        | .error e => .error e
      else .ok (false, none)
    else .ok (false, none)

/-- Model of `get_company_contacts` (csm-dashboard.py lines 116-163).  Returns
the record list on success and the empty list — not `None` — on every
failure path, printing nothing (the transport-exception handler is a
bare `return []`).  The Python value is always a list; the `Option`
layer is kept so a `None` return would be representable. -/
def get_company_contacts {α : Type} :
    CallResult α → Except Unit (Bool × Option (List α))
  | .exn => .ok (false, some [])
  | .resp status body =>
    if status = 200 then
      if body.result then
        match dictGetDataRecords body.data with
        | .ok records => .ok (false, some records)
        | .error e => .error e
      else .ok (false, some [])
    else .ok (false, some [])

/-- Model of `safe_timeline_query` (timeline-viewer.py lines 13-61): returns the
whole decoded body on a 200 response, prints and returns `None` on a
non-200 status or a transport exception. -/
def safe_timeline_query {α : Type} : CallResult α → Bool × Option (Body α)
  | .exn => (true, none)
  | .resp status body =>
    if status = 200 then (false, some body) else (true, none)

/-- Model of `lookup_company_by_id` (company-lookup.py lines 12-49): returns the
whole decoded body on a 200 response, prints and returns `None` on a
non-200 status or a transport exception. -/
def lookup_company_by_id {α : Type} : CallResult α → Bool × Option (Body α)
  | .exn => (true, none)
  | .resp status body =>
    if status = 200 then (false, some body) else (true, none)

/-- Observable outcome of one script run with valid configuration:
the process exit code, whether the failure banner (the script's `❌ …
failed` / `❌ Failed …` block) was printed, and whether the final
`🛡️ 100% READ-ONLY` banner was printed. -/
structure ScriptOut where
  exitCode : Nat
  failureBanner : Bool
  readOnlyBanner : Bool
deriving DecidableEq

/-- The Python value a `FetchResult` stands for: `ok` is the returned
list, `fail` is `None` (`outOfFuel` never arises in a terminating
run and is mapped to `none` as well). -/
def fetchReturn {α : Type} : FetchResult α → Option (List α)
  | .ok contacts _ => some contacts
  | .fail _ => none
  | .outOfFuel => none

/-- contacts-lookup.py `main` (lines 126-176) after configuration
checks pass, as a function of the value returned by
`fetch_contacts_by_company_gsid`: `if contacts is not None` prints the
results, else prints the failure banner; the read-only banner is
always printed and the process exits with code 0. -/
def contacts_lookup_main {α : Type} (contacts : Option (List α)) : ScriptOut :=
  if contacts.isSome then ⟨0, false, true⟩ else ⟨0, true, true⟩

/-- timeline-viewer.py `main` (lines 106-148) after configuration
checks pass, as a function of the value returned by
`safe_timeline_query`: `if data:` prints the results, else prints the
failure banner; the read-only banner is always printed and the process
exits with code 0.  (A returned body is a non-empty mapping, hence
truthy.) -/
def timeline_viewer_main {α : Type} (data : Option (Body α)) : ScriptOut :=
  if data.isSome then ⟨0, false, true⟩ else ⟨0, true, true⟩

/-- company-lookup.py `main` (lines 74-116) after configuration checks
pass, as a function of the value returned by `lookup_company_by_id`:
same shape as the timeline viewer. -/
def company_lookup_main {α : Type} (data : Option (Body α)) : ScriptOut :=
  if data.isSome then ⟨0, false, true⟩ else ⟨0, true, true⟩

/-- gainsight-api-hello-world.py `main` after configuration checks
pass: `resp.raise_for_status()` raises for any 4xx/5xx status, the
handler prints `❌ Request failed.`, and the process falls off the end
of `main` with exit code 0 either way.  This script has no read-only
banner, so that field is always `false`. -/
def hello_world_main {α : Type} : CallResult α → ScriptOut
  | .exn => ⟨0, true, false⟩
  | .resp status _ =>
    if 400 ≤ status ∧ status < 600 then ⟨0, true, false⟩ else ⟨0, false, false⟩

/-- Python truthiness of the dashboard's `activities` value: `None`
and the empty list are falsy. -/
def pyFalsy {α : Type} : Option (List α) → Bool
  | none => true
  | some [] => true
  | some (_ :: _) => false

/-- csm-dashboard.py `main`, lines 228-232: `activities =
get_timeline_activities(...)`; `if not activities:` prints `❌ Failed
to get timeline activities` and calls `sys.exit(1)` — before the final
read-only banner.  `some out` is that early exit; `none` means the
script continues into steps 2 and 3. -/
def csm_dashboard_early {α : Type} (activities : Option (List α)) :
    Option ScriptOut :=
  if pyFalsy activities then some ⟨1, true, false⟩ else none

/-- C2 counterexample: with valid configuration, an HTTP 404 on the
dashboard's timeline query makes `get_timeline_activities` return
`None` (as the claim says), but csm-dashboard.py then prints its
failure message and calls `sys.exit(1)` — exit code 1, not the claimed
0. -/
theorem c2_counterexample :
    get_timeline_activities
        (CallResult.resp 404 ⟨true, RawData.missing⟩ : CallResult Contact)
      = .ok (true, none)
    ∧ csm_dashboard_early (none : Option (List Contact)) = some ⟨1, true, false⟩
    ∧ (1 : Nat) ≠ 0 := by
  refine ⟨rfl, rfl, by decide⟩

/-- C2 amended: an HTTP 404 is handled without an uncaught exception in
every script; the fetch functions return `None` — except
`get_company_contacts`, which returns the empty list — and
contacts-lookup, timeline-viewer, company-lookup and the hello-world
script print their failure banner and exit with code 0, while
csm-dashboard prints its failure message and exits with code 1. -/
theorem c2_amended (b : Body Contact) (srv : Nat → CallResult Contact)
    (N fuel : Nat) (hsrv : srv 0 = .resp 404 b) :
    fetch_contacts_by_company_gsid N srv (fuel + 1) = .fail true
    ∧ contacts_lookup_main
        (fetchReturn (fetch_contacts_by_company_gsid N srv (fuel + 1)))
        = ⟨0, true, true⟩
    ∧ safe_timeline_query (CallResult.resp 404 b) = (true, none)
    ∧ timeline_viewer_main (safe_timeline_query (CallResult.resp 404 b)).2
        = ⟨0, true, true⟩
    ∧ lookup_company_by_id (CallResult.resp 404 b) = (true, none)
    ∧ company_lookup_main (lookup_company_by_id (CallResult.resp 404 b)).2
        = ⟨0, true, true⟩
    ∧ hello_world_main (CallResult.resp 404 b) = ⟨0, true, false⟩
    ∧ get_timeline_activities (CallResult.resp 404 b) = .ok (true, none)
    ∧ csm_dashboard_early (none : Option (List Contact)) = some ⟨1, true, false⟩
    ∧ lookup_company_name (CallResult.resp 404 b) = .ok (false, none)
    ∧ get_company_contacts (CallResult.resp 404 b) = .ok (false, some []) := by
  have hfetch : fetch_contacts_by_company_gsid N srv (fuel + 1) = .fail true := by
    unfold fetch_contacts_by_company_gsid
    apply fetchGo_succ_none
    rw [hsrv]
    simp [extractRecords]
  refine ⟨hfetch, by rw [hfetch]; rfl, ?_, ?_, ?_, ?_, ?_, ?_, rfl, ?_, ?_⟩
  all_goals simp [safe_timeline_query, timeline_viewer_main, lookup_company_by_id,
    company_lookup_main, hello_world_main, get_timeline_activities,
    lookup_company_name, get_company_contacts]

/-- Witness for the amended C2 at a concrete 404 response. -/
theorem c2_amended_witness :
    (fun srv : Nat → CallResult Contact => srv 0 = .resp 404 ⟨true, RawData.missing⟩)
        (fun _ => .resp 404 ⟨true, RawData.missing⟩)
    ∧ fetch_contacts_by_company_gsid 1000
        (fun _ => (.resp 404 ⟨true, RawData.missing⟩ : CallResult Contact)) 1
        = .fail true := by
  have h := c2_amended ⟨true, RawData.missing⟩
    (fun _ => .resp 404 ⟨true, RawData.missing⟩) 1000 0 rfl
  exact ⟨rfl, h.1⟩

/-- C3 counterexample: with valid configuration and a mere remote-call
failure (the timeline fetch returning `None`), csm-dashboard.py exits
with code 1 and never reaches its read-only banner, contradicting both
"always reaches and prints its final read-only banner" and "exit code
1 occurs only when required configuration is missing". -/
theorem c3_counterexample :
    (csm_dashboard_early (none : Option (List Contact))).map ScriptOut.exitCode
      = some 1
    ∧ (csm_dashboard_early (none : Option (List Contact))).map
        ScriptOut.readOnlyBanner = some false := ⟨rfl, rfl⟩

/-- C3 amended: contacts-lookup, timeline-viewer and company-lookup
always reach and print their final read-only banner and exit with code
0 whatever their remote call returned; csm-dashboard instead exits
with code 1 without the read-only banner whenever the timeline fetch
fails or yields no activities, and only continues past that check when
activities were obtained. -/
theorem c3_amended :
    (∀ r : Option (List Contact),
      (contacts_lookup_main r).exitCode = 0
        ∧ (contacts_lookup_main r).readOnlyBanner = true)
    ∧ (∀ d : Option (Body Contact),
      (timeline_viewer_main d).exitCode = 0
        ∧ (timeline_viewer_main d).readOnlyBanner = true)
    ∧ (∀ d : Option (Body Contact),
      (company_lookup_main d).exitCode = 0
        ∧ (company_lookup_main d).readOnlyBanner = true)
    ∧ (∀ a : Option (List Contact),
      pyFalsy a = true → csm_dashboard_early a = some ⟨1, true, false⟩)
    ∧ (∀ a : Option (List Contact),
      pyFalsy a = false → csm_dashboard_early a = none) := by
  refine ⟨?_, ?_, ?_, ?_, ?_⟩
  · intro r; cases r <;> simp [contacts_lookup_main]
  · intro d; cases d <;> simp [timeline_viewer_main]
  · intro d; cases d <;> simp [company_lookup_main]
  · intro a ha; simp [csm_dashboard_early, ha]
  · intro a ha; simp [csm_dashboard_early, ha]

/-- Witness for the amended C3 at concrete values. -/
theorem c3_amended_witness :
    ((contacts_lookup_main (some ([] : List Contact))).exitCode = 0
      ∧ (contacts_lookup_main (some ([] : List Contact))).readOnlyBanner = true)
    ∧ (pyFalsy (none : Option (List Contact)) = true
      ∧ csm_dashboard_early (none : Option (List Contact)) = some ⟨1, true, false⟩) :=
  ⟨c3_amended.1 (some []), by decide, c3_amended.2.2.2.1 none (by decide)⟩

/-- C4 counterexample: on a transport exception, `get_company_contacts`
returns the empty list — not the `None` sentinel — and prints nothing;
`lookup_company_name` does return `None` but prints nothing, contrary
to "caught, printed". -/
theorem c4_counterexample :
    get_company_contacts (CallResult.exn : CallResult Contact)
      = .ok (false, some [])
    ∧ get_company_contacts (CallResult.exn : CallResult Contact)
      ≠ .ok (false, none)
    ∧ lookup_company_name (CallResult.exn : CallResult Contact)
      = .ok (false, none) := by
  refine ⟨rfl, by simp [get_company_contacts], rfl⟩

/-- C4 amended: every remote-call function catches transport errors and
returns immediately, with no retry (feeding the exception as the first
response settles the paginated fetch regardless of every later
response).  `fetch_contacts_by_company_gsid`, `safe_timeline_query`,
`lookup_company_by_id` and `get_timeline_activities` print the error
and return `None`; `lookup_company_name` returns `None` without
printing; `get_company_contacts` returns the empty list without
printing. -/
theorem c4_amended (srv : Nat → CallResult Contact) (N fuel : Nat)
    (hsrv : srv 0 = .exn) :
    fetch_contacts_by_company_gsid N srv (fuel + 1) = .fail true
    ∧ safe_timeline_query (CallResult.exn : CallResult Contact) = (true, none)
    ∧ lookup_company_by_id (CallResult.exn : CallResult Contact) = (true, none)
    ∧ get_timeline_activities (CallResult.exn : CallResult Contact)
      = .ok (true, none)
    ∧ lookup_company_name (CallResult.exn : CallResult Contact)
      = .ok (false, none)
    ∧ get_company_contacts (CallResult.exn : CallResult Contact)
      = .ok (false, some []) := by
  have hfetch : fetch_contacts_by_company_gsid N srv (fuel + 1) = .fail true := by
    unfold fetch_contacts_by_company_gsid
    apply fetchGo_succ_none
    rw [hsrv]
    rfl
  exact ⟨hfetch, rfl, rfl, rfl, rfl, rfl⟩

/-- Witness for the amended C4 at a concrete transport exception. -/
theorem c4_amended_witness :
    (fun srv : Nat → CallResult Contact => srv 0 = .exn) (fun _ => .exn)
    ∧ fetch_contacts_by_company_gsid 1000
        (fun _ => (.exn : CallResult Contact)) 1 = .fail true := by
  have h := c4_amended (fun _ => .exn) 1000 0 rfl
  exact ⟨rfl, h.1⟩

/-- The abort causes named by the error-handling contract of the
pagination loop: a non-200 HTTP status, a body with a falsy `result`
flag, or a `data` field that is neither a mapping with a `records` key
nor a bare list. -/
def badIteration {α : Type} : CallResult α → Bool
  | .exn => false
  | .resp status body =>
    if status ≠ 200 then true
    else if body.result = false then true
    else
      match body.data with
      | .dictOther => true
      | .other => true
      | _ => false

lemma extractRecords_eq_none_of_bad {α : Type} (c : CallResult α)
    (h : badIteration c = true) : extractRecords c = none := by
  cases c with
  | exn => rfl
  | resp status body =>
    by_cases hs : status = 200
    · subst hs
      by_cases hr : body.result = false
      · simp [extractRecords, hr]
      · cases hd : body.data <;>
          simp_all [extractRecords, badIteration, hd]
    · simp [extractRecords, hs]

lemma fetchGo_bad {α : Type} (limit : Nat) (srv : Nat → CallResult α) :
    ∀ (k fuel offset : Nat) (acc : List α) (calls : Nat),
      (∀ i, i < k → ∃ records,
        extractRecords (srv (offset + i * limit)) = some records
          ∧ limit ≤ records.length) →
      badIteration (srv (offset + k * limit)) = true →
      k < fuel →
      fetchGo limit srv fuel offset acc calls = .fail true := by
  intro k
  induction k with
  | zero =>
    intro fuel offset acc calls _ hbad hfuel
    cases fuel with
    | zero => exact absurd hfuel (lt_irrefl 0)
    | succ f =>
      apply fetchGo_succ_none
      apply extractRecords_eq_none_of_bad
      simpa using hbad
  | succ k ih =>
    intro fuel offset acc calls hgood hbad hfuel
    cases fuel with
    | zero => exact absurd hfuel (Nat.not_lt_zero _)
    | succ f =>
      obtain ⟨records, hrec, hlen⟩ := hgood 0 (Nat.succ_pos k)
      simp only [Nat.zero_mul, Nat.add_zero] at hrec
      rw [fetchGo_succ_some limit srv f offset acc calls records hrec,
        if_neg (not_lt.mpr hlen)]
      apply ih f (offset + limit) (acc ++ records) (calls + 1)
      · intro i hi
        obtain ⟨r, hr, hl⟩ := hgood (i + 1) (Nat.succ_lt_succ hi)
        refine ⟨r, ?_, hl⟩
        have harith : offset + (i + 1) * limit = offset + limit + i * limit := by
          rw [Nat.succ_mul]; omega
        rwa [harith] at hr
      · have harith : offset + (k + 1) * limit = offset + limit + k * limit := by
          rw [Nat.succ_mul]; omega
        rwa [harith] at hbad
      · exact Nat.lt_of_succ_lt_succ hfuel

/-- C8: if the pagination loop's earlier iterations each obtained a
full page (so the loop kept going) and some iteration then receives a
non-200 status, a falsy `result` flag, or a malformed `data` field,
the whole fetch returns the `None` failure sentinel — never the
records accumulated by the earlier iterations. -/
theorem c8_abort_no_partial {α : Type} (limit : Nat)
    (srv : Nat → CallResult α) (k fuel : Nat)
    (hgood : ∀ i, i < k → ∃ records,
      extractRecords (srv (i * limit)) = some records
        ∧ limit ≤ records.length)
    (hbad : badIteration (srv (k * limit)) = true)
    (hfuel : k < fuel) :
    fetch_contacts_by_company_gsid limit srv fuel = .fail true := by
  unfold fetch_contacts_by_company_gsid
  apply fetchGo_bad limit srv k fuel 0 [] 0
  · simpa using hgood
  · simpa using hbad
  · exact hfuel

/-- Witness for C8: page size 1, one successful full page followed by
an HTTP 500, result `.fail` rather than the one-record partial
accumulation. -/
theorem c8_abort_no_partial_witness :
    ((∀ i, i < 1 → ∃ records,
        extractRecords ((fun o => if o = 0
            then CallResult.resp 200 ⟨true, RawData.dictWithRecords [(7 : Nat)]⟩
            else CallResult.resp 500 ⟨true, RawData.missing⟩) (i * 1))
          = some records ∧ 1 ≤ records.length)
      ∧ badIteration ((fun o => if o = 0
            then CallResult.resp 200 ⟨true, RawData.dictWithRecords [(7 : Nat)]⟩
            else CallResult.resp 500 ⟨true, RawData.missing⟩) (1 * 1)) = true
      ∧ 1 < 2)
    ∧ fetch_contacts_by_company_gsid 1
        (fun o => if o = 0
          then CallResult.resp 200 ⟨true, RawData.dictWithRecords [(7 : Nat)]⟩
          else CallResult.resp 500 ⟨true, RawData.missing⟩) 2 = .fail true := by
  refine ⟨⟨?_, by decide, by decide⟩, ?_⟩
  · intro i hi
    have h0 : i = 0 := Nat.lt_one_iff.mp hi
    subst h0
    exact ⟨[7], by decide, by decide⟩
  · exact c8_abort_no_partial 1 _ 1 2
      (fun i hi => by
        have h0 : i = 0 := Nat.lt_one_iff.mp hi
        subst h0
        exact ⟨[7], by decide, by decide⟩)
      (by decide) (by decide)

/-- Model of `redact_email` (contacts-lookup.py lines 12-16 and csm-dashboard.py
lines 14-18, identical): a falsy or '@'-free string passes through;
otherwise `email.split('@', 1)` yields the part before the first '@'
(`user`) and everything after it (`domain`), and the result is
`f"{user[:1]}***@{domain}"` when `user` is non-empty, else
`f"***@{domain}"`. -/
def redact_email (email : List Char) : List Char :=
  if email = [] ∨ '@' ∉ email then email
  else
    let user := email.takeWhile (· ≠ '@')
    let domain := (email.dropWhile (· ≠ '@')).tail
    if user ≠ [] then user.take 1 ++ '*' :: '*' :: '*' :: '@' :: domain
    else '*' :: '*' :: '*' :: '@' :: domain

/-- The function `redact_email` lifted to a possibly-`None` Python value: `if not
email` makes `None` pass through unchanged. -/
def redact_email_opt : Option (List Char) → Option (List Char)
  | none => none
  | some e => some (redact_email e)

lemma redact_email_no_at (s : List Char) (h : '@' ∉ s) : redact_email s = s := by
  unfold redact_email
  rw [if_pos (Or.inr h)]

lemma takeWhile_ne_at_append (u d : List Char) (h : '@' ∉ u) :
    (u ++ '@' :: d).takeWhile (· ≠ '@') = u := by
  induction u with
  | nil =>
    rw [List.nil_append, List.takeWhile_cons, if_neg (by decide)]
  | cons c t ih =>
    have hc : c ≠ '@' := fun hc => h (hc ▸ List.mem_cons_self c t)
    have ht : '@' ∉ t := fun hm => h (List.mem_cons_of_mem c hm)
    rw [List.cons_append, List.takeWhile_cons, if_pos (decide_eq_true hc), ih ht]

lemma dropWhile_ne_at_append (u d : List Char) (h : '@' ∉ u) :
    (u ++ '@' :: d).dropWhile (· ≠ '@') = '@' :: d := by
  induction u with
  | nil =>
    rw [List.nil_append, List.dropWhile_cons, if_neg (by decide)]
  | cons c t ih =>
    have hc : c ≠ '@' := fun hc => h (hc ▸ List.mem_cons_self c t)
    have ht : '@' ∉ t := fun hm => h (List.mem_cons_of_mem c hm)
    rw [List.cons_append, List.dropWhile_cons, if_pos (decide_eq_true hc), ih ht]

lemma redact_email_split (u d : List Char) (h : '@' ∉ u) :
    redact_email (u ++ '@' :: d) = u.take 1 ++ '*' :: '*' :: '*' :: '@' :: d := by
  unfold redact_email
  rw [if_neg, takeWhile_ne_at_append u d h, dropWhile_ne_at_append u d h]
  · simp only [List.tail_cons]
    by_cases hu : u = []
    · subst hu; simp
    · rw [if_pos hu]
  · push_neg
    constructor
    · exact fun he => by simp at he
    · exact List.mem_append_right u (List.mem_cons_self '@' d)

/-- C5: `redact_email` is a pure function that maps any string with an
'@' — split at its first '@' into local part `u` and domain `d` — to
the first character of the local part followed by `***@` and the
complete, unmodified domain, and passes every '@'-free string (the
empty string included) and the `None` value through unchanged. -/
theorem c5_redaction :
    (∀ u d : List Char, '@' ∉ u →
      redact_email (u ++ '@' :: d) = u.take 1 ++ '*' :: '*' :: '*' :: '@' :: d)
    ∧ (∀ s : List Char, '@' ∉ s → redact_email s = s)
    ∧ redact_email_opt none = none :=
  ⟨redact_email_split, redact_email_no_at, rfl⟩

/-- Witness for C5: `al@example.com` redacts to `a***@example.com`,
and a string without '@' is unchanged. -/
theorem c5_redaction_witness :
    ('@' ∉ ('a' :: 'l' :: [])
      ∧ redact_email (('a' :: 'l' :: []) ++ '@' :: "example.com".data)
        = ('a' :: 'l' :: []).take 1 ++ '*' :: '*' :: '*' :: '@' :: "example.com".data)
    ∧ ('@' ∉ "plain".data ∧ redact_email "plain".data = "plain".data) :=
  ⟨⟨by decide, c5_redaction.1 ('a' :: 'l' :: []) "example.com".data (by decide)⟩,
    ⟨by decide, c5_redaction.2.1 "plain".data (by decide)⟩⟩

lemma dropWhile_mem_at (s : List Char) (h : '@' ∈ s) :
    s.dropWhile (· ≠ '@') = '@' :: (s.dropWhile (· ≠ '@')).tail := by
  induction s with
  | nil => cases h
  | cons c t ih =>
    by_cases hc : c = '@'
    · subst hc
      simp [List.dropWhile_cons]
    · have ht : '@' ∈ t := by
        cases List.mem_cons.mp h with
        | inl h1 => exact absurd h1.symm hc
        | inr h2 => exact h2
      rw [List.dropWhile_cons, if_pos (by simp [hc])]
      exact ih ht

/-- C9: re-redacting changes nothing for a string with no '@' or with a
non-empty local part, but for a string beginning with '@' (empty local
part) a second application prepends one more '*'. -/
theorem c9_redaction_idempotence :
    (∀ s : List Char, ('@' ∈ s → s.takeWhile (· ≠ '@') ≠ []) →
      redact_email (redact_email s) = redact_email s)
    ∧ (∀ d : List Char,
      redact_email (redact_email ('@' :: d)) = '*' :: redact_email ('@' :: d)) := by
  constructor
  · intro s hloc
    by_cases hs : '@' ∈ s
    · have hu : s.takeWhile (· ≠ '@') ≠ [] := hloc hs
      have hnotin : '@' ∉ s.takeWhile (· ≠ '@') := by
        intro hmem
        have := List.mem_takeWhile_imp hmem
        simp at this
      have hsplit : s.takeWhile (· ≠ '@') ++ '@' :: (s.dropWhile (· ≠ '@')).tail
          = s := by
        conv_rhs =>
          rw [← List.takeWhile_append_dropWhile (fun c => decide (c ≠ '@')) s]
        congr 1
        exact (dropWhile_mem_at s hs).symm
      have h1 : redact_email s = (s.takeWhile (· ≠ '@')).take 1
          ++ '*' :: '*' :: '*' :: '@' :: (s.dropWhile (· ≠ '@')).tail := by
        conv_lhs => rw [← hsplit]
        exact redact_email_split _ _ hnotin
      obtain ⟨c, t, hct⟩ := List.exists_cons_of_ne_nil hu
      have hcmem : c ∈ s.takeWhile (· ≠ '@') := by
        rw [hct]
        exact List.mem_cons_self c t
      have hc : c ≠ '@' := by
        intro hceq
        rw [hceq] at hcmem
        exact hnotin hcmem
      have htake1 : (s.takeWhile (· ≠ '@')).take 1 = [c] := by
        rw [hct]
        simp
      rw [h1, htake1]
      have hnotin2 : '@' ∉ (c :: '*' :: '*' :: '*' :: []) := by
        intro hm
        rcases List.mem_cons.mp hm with h' | hm2
        · exact hc h'.symm
        · exact absurd hm2 (by decide)
      have h2 := redact_email_split (c :: '*' :: '*' :: '*' :: [])
        ((s.dropWhile (· ≠ '@')).tail) hnotin2
      simpa using h2
    · rw [redact_email_no_at s hs, redact_email_no_at s hs]
  · intro d
    have h0 : redact_email ('@' :: d) = '*' :: '*' :: '*' :: '@' :: d := by
      have := redact_email_split [] d (by simp)
      simpa using this
    rw [h0]
    have h1 := redact_email_split ('*' :: '*' :: '*' :: []) d (by decide)
    simpa using h1

/-- Witness for C9: `a@b` is a fixed point of a second redaction, while
`@b` gains one more '*'. -/
theorem c9_redaction_idempotence_witness :
    (('@' ∈ ('a' :: '@' :: 'b' :: []) →
        ('a' :: '@' :: 'b' :: []).takeWhile (· ≠ '@') ≠ [])
      ∧ redact_email (redact_email ('a' :: '@' :: 'b' :: []))
        = redact_email ('a' :: '@' :: 'b' :: []))
    ∧ redact_email (redact_email ('@' :: 'b' :: []))
      = '*' :: redact_email ('@' :: 'b' :: []) :=
  ⟨⟨by decide, c9_redaction_idempotence.1 ('a' :: '@' :: 'b' :: []) (by decide)⟩,
    c9_redaction_idempotence.2 ('b' :: [])⟩

/-- Subject rendering in `format_timeline_data` (timeline-viewer.py
lines 94-96): `if subject and len(subject) > 50: subject =
subject[:50] + "..."`. -/
def tv_truncate_subject (subject : List Char) : List Char :=
  if subject ≠ [] ∧ 50 < subject.length then
    subject.take 50 ++ '.' :: '.' :: '.' :: []
  else subject

/-- Subject rendering in `format_timeline_summary` (csm-dashboard.py
lines 188-193): `subject = activity.get('Subject', 'No subject')[:50]`
then `if subject: subject = subject + "..." if len(subject) == 50 else
subject`.  The Python rebinds `subject` to the 50-character slice
before testing it; the slice appears in place of the rebinding. -/
def dash_truncate_subject (subject : List Char) : List Char :=
  if subject.take 50 ≠ [] then
    (if (subject.take 50).length = 50 then
      subject.take 50 ++ '.' :: '.' :: '.' :: []
    else subject.take 50)
  else subject.take 50

/-- C7: in both subject presenters, every subject longer than 50
characters (a 51-character subject in particular) is rendered as its
first 50 characters followed by an ellipsis. -/
theorem c7_subject_truncation (s : List Char) (h : 50 < s.length) :
    tv_truncate_subject s = s.take 50 ++ '.' :: '.' :: '.' :: []
    ∧ dash_truncate_subject s = s.take 50 ++ '.' :: '.' :: '.' :: [] := by
  have hne : s ≠ [] := by
    intro hnil
    rw [hnil] at h
    exact absurd h (by decide)
  have hlen : (s.take 50).length = 50 := by
    rw [List.length_take]
    exact min_eq_left (le_of_lt h)
  have htne : s.take 50 ≠ [] := by
    intro hnil
    rw [hnil] at hlen
    exact absurd hlen (by decide)
  constructor
  · unfold tv_truncate_subject
    rw [if_pos ⟨hne, h⟩]
  · unfold dash_truncate_subject
    rw [if_pos htne, if_pos hlen]

/-- Witness for C7 at a subject of exactly 51 characters. -/
theorem c7_subject_truncation_witness :
    50 < (List.replicate 51 'a').length
    ∧ tv_truncate_subject (List.replicate 51 'a')
        = (List.replicate 51 'a').take 50 ++ '.' :: '.' :: '.' :: []
    ∧ dash_truncate_subject (List.replicate 51 'a')
        = (List.replicate 51 'a').take 50 ++ '.' :: '.' :: '.' :: [] :=
  ⟨by decide, c7_subject_truncation (List.replicate 51 'a') (by decide)⟩

/-- C10: in csm-dashboard's `format_timeline_summary`, every subject of
length at least 50 — a subject of exactly 50 characters included — is
rendered as its first 50 characters plus an ellipsis, and every
shorter subject is rendered unchanged. -/
theorem c10_dashboard_truncation (s : List Char) :
    (50 ≤ s.length → dash_truncate_subject s = s.take 50 ++ '.' :: '.' :: '.' :: [])
    ∧ (s.length < 50 → dash_truncate_subject s = s) := by
  constructor
  · intro h
    have hlen : (s.take 50).length = 50 := by
      rw [List.length_take]
      exact min_eq_left h
    have htne : s.take 50 ≠ [] := by
      intro hnil
      rw [hnil] at hlen
      exact absurd hlen (by decide)
    unfold dash_truncate_subject
    rw [if_pos htne, if_pos hlen]
  · intro h
    have htake : s.take 50 = s := List.take_of_length_le (le_of_lt h)
    unfold dash_truncate_subject
    rw [htake]
    by_cases hs : s = []
    · rw [if_neg (by rw [hs]; simp)]
    · rw [if_pos hs, if_neg (by intro he; rw [he] at h; exact absurd h (by decide))]

/-- Witness for C10: a subject of exactly 50 characters gains an
ellipsis; a 2-character subject is unchanged. -/
theorem c10_dashboard_truncation_witness :
    (50 ≤ (List.replicate 50 'b').length
      ∧ dash_truncate_subject (List.replicate 50 'b')
        = (List.replicate 50 'b').take 50 ++ '.' :: '.' :: '.' :: [])
    ∧ ("hi".data.length < 50 ∧ dash_truncate_subject "hi".data = "hi".data) :=
  ⟨⟨by decide, (c10_dashboard_truncation (List.replicate 50 'b')).1 (by decide)⟩,
    ⟨by decide, (c10_dashboard_truncation "hi".data).2 (by decide)⟩⟩

/-- Python `collections.Counter` over a list, as the dashboard uses it: counts
keyed in first-occurrence order (the iteration order of
`Counter.items()`). -/
def counterOf (l : List (List Char)) : List (List Char × Nat) :=
  l.foldl (fun acc d =>
    if acc.any (fun p => p.1 == d) then
      acc.map (fun p => if p.1 = d then (p.1, p.2 + 1) else p)
    else acc ++ [(d, 1)]) []

/-- Model of `extract_email_domains` (csm-dashboard.py lines 166-179): for each
contact, take `Person_ID__gr.Email` (default `''`); when it is truthy
and contains '@', collect `email.split('@')[1].lower()` — the text
between the first and second '@', lower-cased; count the collected
domains with `Counter`, returning an empty mapping when none were
collected. -/
def extract_email_domains (contacts : List Contact) : List (List Char × Nat) :=
  let domains := contacts.filterMap (fun c =>
    match c.email with
    | none => none
    | some e =>
      if e = [] ∨ '@' ∉ e then none
      else some ((((e.dropWhile (· ≠ '@')).tail).takeWhile (· ≠ '@')).map
        Char.toLower))
  if domains ≠ [] then counterOf domains else []

/-- Python `max(items, key=lambda x: x[1])[0]`: the key of the first
item with maximal count in iteration order (`max` keeps the earlier
item on ties). -/
def maxByCount (items : List (List Char × Nat)) : Option (List Char) :=
  match items with
  | [] => none
  | x :: xs => some (xs.foldl (fun best p => if best.2 < p.2 then p else best) x).1

/-- The dashboard's `primary_domain = max(domain_counts.items(),
key=lambda x: x[1])[0] if domain_counts else "Unknown"`
(csm-dashboard.py lines 271-272). -/
def primary_domain (counts : List (List Char × Nat)) : List Char :=
  match maxByCount counts with
  | some d => d
  | none => "Unknown".data

/-- Three contacts whose email domains, lower-cased, are
`a.com`, `a.com`, `b.com`. -/
def demoContacts : List Contact :=
  [⟨some "x@A.com".data⟩, ⟨some "y@a.com".data⟩, ⟨some "z@B.com".data⟩]

/-- C6: on contacts with email domains `a.com`, `a.com`, `b.com`, the
aggregator returns the mapping `{a.com: 2, b.com: 1}` and the
most-frequent selection reports `a.com` as the primary domain. -/
theorem c6_domain_aggregation :
    extract_email_domains demoContacts
      = [("a.com".data, 2), ("b.com".data, 1)]
    ∧ primary_domain (extract_email_domains demoContacts) = "a.com".data := by
  refine ⟨by decide, by decide⟩

end GainsightToolkit
